import Mathlib

/-!
Shallow embedding of the meal-logging application (`src/app.py` of the
whatsapp-llm-agent repository) and proofs about its nutrition resolution,
meal persistence, daily aggregation and command routing.

Conventions of the embedding:
* Python floats (SQLite REAL) are modelled as exact rationals `ℚ`; the
  arithmetic performed by the program (sums of table values) is the same.
* Python exceptions are modelled with `Except` / explicit error branches.
* SQLite rows of the `meals` table are a Lean list in insertion order;
  `SUM ... WHERE user_id = ? AND timestamp LIKE d%` is a filter by exact
  user match and date-string prefix (the pattern `d ++ "%"` contains no
  further wildcard characters, so `LIKE` is a prefix test here).
* The JSON serialisation of the per-item breakdown (`details` column) is
  abstracted as the item list itself.
* The TwiML envelope that Twilio wraps around a reply is transport framing;
  a handler result is modelled as the plain reply text plus the new store.
-/

set_option maxRecDepth 40000

namespace App

/-- Python substring test `needle in hay` on lists of characters
(`food_name in meal_text` in `nutritionix_parse`). An empty needle is
contained in every string, as in Python. -/
def strContains (needle : List Char) : List Char → Bool
  | [] => needle.isPrefixOf []
  | c :: t => needle.isPrefixOf (c :: t) || strContains needle t

/-- Python `str.lower()`: lowercase each character (modelled at the ASCII
level of `Char.toLower`; the inputs the program compares are ASCII). -/
def strLower (s : String) : String :=
  ⟨s.data.map Char.toLower⟩

/-- Python `str.strip()` on a character list: drop leading and trailing
whitespace. -/
def trimChars (l : List Char) : List Char :=
  ((l.dropWhile Char.isWhitespace).reverse.dropWhile Char.isWhitespace).reverse

/-- Python `str.strip()`. -/
def strTrim (s : String) : String :=
  ⟨trimChars s.data⟩

/-- An entry of the local food table `indian_foods.json` (built by
`create_database.py`): calories and protein per serving. -/
structure FoodInfo where
  calories : ℚ
  protein_g : ℚ
deriving Repr, DecidableEq

/-- The in-memory food table `FOOD_DB`, a JSON object whose keys are
lowercase food names; dict iteration order is insertion order, kept here as
a list of pairs. -/
abbrev FoodCatalog := List (String × FoodInfo)

/-- A parsed food item as built by `nutritionix_parse` (local path) and
`__nutritionix_parse__` (remote path) in `src/app.py`. The remote API may
omit `food_name`, which the code stores as-is (`None`), hence
`Option String`. -/
structure ResolvedItem where
  name : Option String
  qty : ℚ
  unit : String
  calories : ℚ
  protein_g : ℚ
deriving Repr, DecidableEq

/-- The dict returned by both parsers: items plus totals (the `raw` field of
the Python dict, a verbatim copy of the API response, is not modelled). -/
structure NutritionResult where
  items : List ResolvedItem
  total_calories : ℚ
  total_protein_g : ℚ
deriving Repr, DecidableEq

/-- The item dict appended for a local catalog match in `nutritionix_parse`
(`src/app.py` lines 63-69): quantity 1, unit "serving", table values. -/
def mkLocalItem (p : String × FoodInfo) : ResolvedItem :=
  { name := some p.1, qty := 1, unit := "serving",
    calories := p.2.calories, protein_g := p.2.protein_g }

/-- The list of items collected by the matching loop of `nutritionix_parse`
over the catalog, given the already-lowercased meal text. -/
def localItems (catalog : FoodCatalog) (lowered : String) : List ResolvedItem :=
  catalog.filterMap fun p =>
    if strContains p.1.data lowered.data then some (mkLocalItem p) else none

/-- Embedding of `nutritionix_parse` (`src/app.py` lines 51-81): lowercase
the text, collect one item per catalog entry whose name occurs as a
substring, accumulate totals, and raise `ValueError("Food not found in
database")` when nothing matched. The loop accumulates `total_cal` and
`total_protein` alongside `items`; summing over the collected items yields
the same values. -/
def nutritionix_parse (catalog : FoodCatalog) (meal_text : String) :
    Except String NutritionResult :=
  let items := localItems catalog (strLower meal_text)
  if items.isEmpty then Except.error "Food not found in database"
  else Except.ok
    { items := items,
      total_calories := (items.map ResolvedItem.calories).sum,
      total_protein_g := (items.map ResolvedItem.protein_g).sum }

/-- One element of the `foods` list of a decoded remote API response, as
read by `__nutritionix_parse__`. Each field is read with `.get`, so every
field may be absent. -/
structure RemoteFood where
  food_name : Option String
  serving_qty : Option ℚ
  serving_unit : Option String
  nf_calories : Option ℚ
  nf_protein : Option ℚ
deriving Repr, DecidableEq

/-- The item dict built per remote food in `__nutritionix_parse__`
(`src/app.py` lines 105-117): name kept as given (possibly missing),
`serving_qty` defaulting to 1, `serving_unit` defaulting to "", calories
and protein defaulting to 0.0. -/
def mkRemoteItem (it : RemoteFood) : ResolvedItem :=
  { name := it.food_name, qty := it.serving_qty.getD 1,
    unit := it.serving_unit.getD "",
    calories := it.nf_calories.getD 0, protein_g := it.nf_protein.getD 0 }

/-- Embedding of the pure part of `__nutritionix_parse__` (`src/app.py`
lines 101-121): from the decoded `foods` list of the API response, build
the item list and totals (the HTTP request itself is effectful and outside
the embedding; `data.get("foods", [])` makes an absent key the empty
list). -/
def nutritionix_parse_remote (foods : List RemoteFood) : NutritionResult :=
  let items := foods.map mkRemoteItem
  { items := items,
    total_calories := (items.map ResolvedItem.calories).sum,
    total_protein_g := (items.map ResolvedItem.protein_g).sum }

/-- Origin of a nutrition result, from the data model of the spec. -/
inductive Source
  | Local
  | Remote
deriving Repr, DecidableEq

/-- Modelled from the spec: the local-first-with-remote-fallback wiring of
NutritionResolver.resolve is absent from `src/app.py` (the webhook calls
only the local `nutritionix_parse`; `__nutritionix_parse__` is defined but
never called). Following the spec: try the local catalog; when it finds
nothing and a remote resolver is configured (`remote = some foods` stands
for a configured remote whose decoded response is `foods`), use the remote
parse; when the remote is unconfigured or returns zero items, fail with
`NoFoodFoundError`. -/
def resolve (catalog : FoodCatalog) (remote : Option (List RemoteFood))
    (text : String) : Except String (NutritionResult × Source) :=
  match nutritionix_parse catalog text with
  | Except.ok r => Except.ok (r, Source.Local)
  | Except.error _ =>
    match remote with
    | none => Except.error "NoFoodFoundError"
    | some foods =>
      let r := nutritionix_parse_remote foods
      if r.items.isEmpty then Except.error "NoFoodFoundError"
      else Except.ok (r, Source.Remote)

/-- A row of the SQLite `meals` table (`init_db` in `src/app.py`); the JSON
string of the `details` column is abstracted as the item list it
serialises. -/
structure MealRecord where
  id : Nat
  user_id : String
  timestamp : String
  meal_text : String
  calories : ℚ
  protein_g : ℚ
  details : List ResolvedItem
deriving Repr, DecidableEq

/-- The `meals` table: rows in insertion order plus the autoincrement
counter for the next primary key. -/
structure Store where
  next_id : Nat
  rows : List MealRecord
deriving Repr, DecidableEq

/-- Embedding of `save_meal` (`src/app.py` lines 124-132): INSERT a new row
with the current UTC timestamp (passed in as `now`, the value of
`datetime.utcnow().isoformat()` at the call). -/
def save_meal (user_id meal_text : String) (calories protein_g : ℚ)
    (details : List ResolvedItem) (now : String) (s : Store) : Store :=
  let r : MealRecord :=
    { id := s.next_id, user_id := user_id, timestamp := now,
      meal_text := meal_text, calories := calories,
      protein_g := protein_g, details := details }
  { next_id := s.next_id + 1, rows := s.rows ++ [r] }

/-- The row filter `user_id = ? AND timestamp LIKE ?` with pattern
`d ++ "%"` used by both `get_daily_totals` and the clear branch of the
webhook: exact user match and date-string prefix match on the
timestamp. -/
def matches_day (u d : String) (r : MealRecord) : Bool :=
  r.user_id == u && d.data.isPrefixOf r.timestamp.data

/-- The dict returned by `get_daily_totals`. -/
structure DailyTotals where
  date : String
  total_calories : ℚ
  total_protein_g : ℚ
deriving Repr, DecidableEq

/-- Embedding of `get_daily_totals` (`src/app.py` lines 135-147):
`SELECT SUM(calories), SUM(protein_g)` over the matching rows; SQL `SUM`
of no rows is NULL, which the code turns into 0.0 — here the sum over the
empty list is 0 directly. -/
def get_daily_totals (user_id target_date : String) (s : Store) : DailyTotals :=
  let matched := s.rows.filter (matches_day user_id target_date)
  { date := target_date,
    total_calories := (matched.map MealRecord.calories).sum,
    total_protein_g := (matched.map MealRecord.protein_g).sum }

/-- The DELETE of the clear branch (`src/app.py` lines 205-210):
`DELETE FROM meals WHERE user_id = ? AND timestamp LIKE ?` with pattern
`today ++ "%"`. The first component is the number of rows the DELETE
affects (the spec exposes it as the return of `delete_for_date`; the
webhook does not read it). -/
def delete_for_date (u d : String) (s : Store) : Nat × Store :=
  ((s.rows.filter (matches_day u d)).length,
   { next_id := s.next_id, rows := s.rows.filter fun r => !(matches_day u d r) })

/-- Round the fraction `n / d` (for `d` positive) to the nearest integer,
ties to even — the rounding CPython uses when formatting a float with
`%.0f`/`%.1f` (modelled on the exact rational values; binary-float
representation error and the sign of negative zero are not modelled).
`f` is the floor of the fraction and `r2` is twice the remainder, compared
against the denominator to locate the half point. -/
def rndHalfEven (n d : ℤ) : ℤ :=
  let f := Int.fdiv n d
  let r2 := 2 * (n - f * d)
  if r2 < d then f
  else if d < r2 then f + 1
  else if f % 2 = 0 then f else f + 1

/-- Python `f"{x:.0f}"` on the modelled value. -/
def fmtF0 (q : ℚ) : String :=
  toString (rndHalfEven q.num (q.den : ℤ))

/-- Python `f"{x:.1f}"` on the modelled value: round `10 * q` to the
nearest integer (ties to even) and print with one decimal place. -/
def fmtF1 (q : ℚ) : String :=
  let n := rndHalfEven (q.num * 10) (q.den : ℤ)
  let sign := if n < 0 then "-" else ""
  sign ++ toString (n.natAbs / 10) ++ "." ++ toString (n.natAbs % 10)

/-- Python `f"{qty}"`: the quantity is the integer 1 on every local item
(the only ones the webhook renders), printed without a decimal point. -/
def fmtQty (q : ℚ) : String :=
  if q.den = 1 then toString q.num else toString q

/-- Python rendering of a possibly-missing name inside an f-string
(`None` prints as "None"). -/
def nameStr : Option String → String
  | some s => s
  | none => "None"

/-- The per-item line `f"- {qty} {unit} {name}: {calories:.0f} kcal,
{protein_g:.1f} g protein"` shared by `openai_clean_and_confirm` and the
webhook fallback (`src/app.py` lines 160 and 249). -/
def itemLine (it : ResolvedItem) : String :=
  "- " ++ fmtQty it.qty ++ " " ++ it.unit ++ " " ++ nameStr it.name ++ ": " ++
    fmtF0 it.calories ++ " kcal, " ++ fmtF1 it.protein_g ++ " g protein"

/-- Python `"\n".join(lines)`. -/
def joinLines : List String → String
  | [] => ""
  | [a] => a
  | a :: b :: t => a ++ "\n" ++ joinLines (b :: t)

/-- Ambient configuration and effect outcomes of one webhook invocation:
the local date (`date.today().isoformat()`), the UTC timestamp
(`datetime.utcnow().isoformat()`) a saved row would get, whether
`OPENAI_API_KEY` is set, the outcome of the OpenAI call when it is
(`some reply` for a successful call, `none` when the call raises), and an
optional exception message raised by the SQLite insert. -/
structure Env where
  today : String
  now : String
  openai_key : Bool
  openai_reply : Option String
  persist_error : Option String
deriving Repr, DecidableEq

/-- Embedding of `openai_clean_and_confirm` (`src/app.py` lines 150-178):
without an API key it builds the simple listing itself and cannot raise;
with a key the OpenAI call either returns a reply or raises (`none`). -/
def openai_clean_and_confirm (env : Env) (_meal_text : String)
    (nutrition_items : List ResolvedItem) : Option String :=
  if !env.openai_key then
    some (joinLines ("I parsed the following items:" :: nutrition_items.map itemLine))
  else env.openai_reply

/-- The classification of one inbound message performed by the chain of
early returns in `whatsapp_webhook`. -/
inductive Command
  | Malformed
  | QueryTotals
  | ClearToday
  | LogMeal (text : String)
deriving Repr, DecidableEq

/-- The routing prefix of `whatsapp_webhook` (`src/app.py` lines 188-203):
read `From` and `Body` (absent `Body` defaults to "", then `.strip()`);
missing/empty sender or empty body is malformed; otherwise compare
`body.lower().strip()` against the two command sets; anything else is a
meal description, carrying the stripped `body`. -/
def route (from_number body_form : Option String) : Command :=
  let body := strTrim (body_form.getD "")
  if from_number.getD "" = "" || body = "" then Command.Malformed
  else
    let lower := strTrim (strLower body)
    if lower = "totals" || lower = "total" || lower = "today" then Command.QueryTotals
    else if lower = "clear" || lower = "clear today" || lower = "reset" then Command.ClearToday
    else Command.LogMeal body

/-- The usage-hint reply of the malformed branch (`src/app.py` line 192). -/
def usage_reply : String :=
  "Sorry — couldn\x27t understand your message. Please send text like: \x27I had 2 eggs and a slice of toast\x27 or \x27totals\x27 or \x27clear\x27."

/-- The reply of the nutrition-parse failure branch (`src/app.py` line 221). -/
def unreachable_reply : String :=
  "Sorry, I couldn\x27t reach the nutrition database. Please try again later."

/-- The reply of the clear branch (`src/app.py` line 212). -/
def cleared_reply : String :=
  "Cleared today\x27s meal records."

/-- Embedding of `whatsapp_webhook` (`src/app.py` lines 181-259). Every
branch of the Python handler ends in `return str(resp)`; the result here is
the reply text plus the store after the effect of the branch. The outer
`except Exception` that turns an uncaught exception (modelled: one raised
by the SQLite insert) into an "Unexpected error: ..." reply, and the inner
handlers around the nutrition parse and the OpenAI call, appear as the
corresponding match branches. -/
def whatsapp_webhook (catalog : FoodCatalog) (env : Env)
    (from_number body_form : Option String) (s : Store) : String × Store :=
  let from_str := from_number.getD ""
  match route from_number body_form with
  | Command.Malformed => (usage_reply, s)
  | Command.QueryTotals =>
    let totals := get_daily_totals from_str env.today s
    ("Your totals for " ++ totals.date ++ ":\nCalories: " ++
      fmtF0 totals.total_calories ++ " kcal\nProtein: " ++
      fmtF1 totals.total_protein_g ++ " g", s)
  | Command.ClearToday =>
    (cleared_reply, (delete_for_date from_str env.today s).2)
  | Command.LogMeal body =>
    match nutritionix_parse catalog body with
    | Except.error _ => (unreachable_reply, s)
    | Except.ok nutrition =>
      match env.persist_error with
      | some msg => ("Unexpected error: " ++ msg, s)
      | none =>
        let s2 := save_meal from_str body nutrition.total_calories
          nutrition.total_protein_g nutrition.items env.now s
        let daily := get_daily_totals from_str env.today s2
        match openai_clean_and_confirm env body nutrition.items with
        | some pretty =>
          (pretty ++ "\n\nMeal totals: " ++ fmtF0 nutrition.total_calories ++
            " kcal, " ++ fmtF1 nutrition.total_protein_g ++ " g protein." ++
            "\nToday\x27s running totals: " ++ fmtF0 daily.total_calories ++
            " kcal, " ++ fmtF1 daily.total_protein_g ++ " g protein.", s2)
        | none =>
          (joinLines (("I logged this meal:" :: nutrition.items.map itemLine) ++
            ["\nMeal totals: " ++ fmtF0 nutrition.total_calories ++ " kcal, " ++
              fmtF1 nutrition.total_protein_g ++ " g protein",
             "Today\x27s running totals: " ++ fmtF0 daily.total_calories ++
              " kcal, " ++ fmtF1 daily.total_protein_g ++ " g protein"]), s2)

/-- The deterministic fallback reply format as the spec words it: a header
line, one line per item, a blank line, the meal-totals line, the
running-totals line, joined by newlines. -/
def spec_fallback_template (header : String) (items : List ResolvedItem)
    (tc tp dc dp : ℚ) : String :=
  joinLines ((header :: items.map itemLine) ++
    ["",
     "Meal totals: " ++ fmtF0 tc ++ " kcal, " ++ fmtF1 tp ++ " g protein",
     "Today\x27s running totals: " ++ fmtF0 dc ++ " kcal, " ++ fmtF1 dp ++ " g protein"])

/-- One `append` call of the MealStore contract of the spec as the webhook
performs it: the timestamp the row gets, the raw text, and the resolver
result whose totals and items are stored. -/
structure AppendCall where
  now : String
  meal_text : String
  result : NutritionResult
deriving Repr, DecidableEq

/-- Run a sequence of `save_meal` calls for one user. -/
def runAppends (u : String) (calls : List AppendCall) (s : Store) : Store :=
  calls.foldl
    (fun st c => save_meal u c.meal_text c.result.total_calories
      c.result.total_protein_g c.result.items c.now st) s

/-! ## Helper lemmas -/

theorem filterMap_ite {α β : Type} (l : List α) (p : α → Bool) (f : α → β) :
    (l.filterMap fun a => if p a then some (f a) else none) = (l.filter p).map f := by
  induction l with
  | nil => rfl
  | cons a t ih =>
    cases hpa : p a <;>
      simp [List.filterMap_cons, List.filter_cons, hpa, ih]

theorem localItems_eq (catalog : FoodCatalog) (lowered : String) :
    localItems catalog lowered =
      (catalog.filter fun p => strContains p.1.data lowered.data).map mkLocalItem :=
  filterMap_ite catalog _ mkLocalItem

theorem nutritionix_parse_ok (catalog : FoodCatalog) (text : String)
    (h : localItems catalog (strLower text) ≠ []) :
    nutritionix_parse catalog text = Except.ok
      { items := localItems catalog (strLower text),
        total_calories := ((localItems catalog (strLower text)).map ResolvedItem.calories).sum,
        total_protein_g := ((localItems catalog (strLower text)).map ResolvedItem.protein_g).sum } := by
  simp only [nutritionix_parse]
  rw [if_neg]
  simp [List.isEmpty_iff, h]

theorem nutritionix_parse_err (catalog : FoodCatalog) (text : String)
    (h : localItems catalog (strLower text) = []) :
    nutritionix_parse catalog text = Except.error "Food not found in database" := by
  simp [nutritionix_parse, h]

theorem nutritionix_parse_ok_sums (catalog : FoodCatalog) (text : String)
    (r : NutritionResult) (h : nutritionix_parse catalog text = Except.ok r) :
    r.total_calories = (r.items.map ResolvedItem.calories).sum ∧
    r.total_protein_g = (r.items.map ResolvedItem.protein_g).sum := by
  simp only [nutritionix_parse] at h
  split at h
  · cases h
  · cases h
    exact ⟨rfl, rfl⟩

/-! ## C1 — local resolution -/

/-- C1: for every input text containing at least one catalog entry name as a
contiguous substring of the lowercased text, the local resolution
(`nutritionix_parse`, the resolver path the webhook uses) succeeds, its
items include one item per matched entry with quantity 1, unit "serving"
and the table values of that entry, and its totals are the sums of the
table values of the matched entries. -/
theorem c1_local_resolution (catalog : FoodCatalog) (text : String)
    (h : ∃ p ∈ catalog, strContains p.1.data (strLower text).data = true) :
    ∃ r, nutritionix_parse catalog text = Except.ok r ∧
      r.items = (catalog.filter fun p => strContains p.1.data (strLower text).data).map mkLocalItem ∧
      (∀ p ∈ catalog, strContains p.1.data (strLower text).data = true →
        ({ name := some p.1, qty := 1, unit := "serving",
           calories := p.2.calories, protein_g := p.2.protein_g } : ResolvedItem) ∈ r.items) ∧
      r.total_calories =
        ((catalog.filter fun p => strContains p.1.data (strLower text).data).map fun p => p.2.calories).sum ∧
      r.total_protein_g =
        ((catalog.filter fun p => strContains p.1.data (strLower text).data).map fun p => p.2.protein_g).sum := by
  obtain ⟨p, hp, hs⟩ := h
  have hmem : mkLocalItem p ∈ localItems catalog (strLower text) := by
    rw [localItems_eq]
    exact List.mem_map_of_mem _ (List.mem_filter.mpr ⟨hp, hs⟩)
  have hne : localItems catalog (strLower text) ≠ [] := List.ne_nil_of_mem hmem
  refine ⟨_, nutritionix_parse_ok catalog text hne, localItems_eq catalog _, ?_, ?_, ?_⟩
  · intro q hq hqs
    rw [localItems_eq]
    exact List.mem_map_of_mem _ (List.mem_filter.mpr ⟨hq, hqs⟩)
  · show ((localItems catalog (strLower text)).map ResolvedItem.calories).sum = _
    rw [localItems_eq]
    simp only [List.map_map]
    rfl
  · show ((localItems catalog (strLower text)).map ResolvedItem.protein_g).sum = _
    rw [localItems_eq]
    simp only [List.map_map]
    rfl

/-- Witness for C1 at the concrete catalog entry "idli". -/
theorem c1_local_resolution_witness :
    ∃ r, nutritionix_parse [("idli", ⟨39, 2⟩)] "I had idli" = Except.ok r ∧
      ({ name := some "idli", qty := 1, unit := "serving",
         calories := 39, protein_g := 2 } : ResolvedItem) ∈ r.items := by
  obtain ⟨r, hok, _, hmem, _, _⟩ :=
    c1_local_resolution [("idli", ⟨39, 2⟩)] "I had idli" ⟨("idli", ⟨39, 2⟩), by decide, by decide⟩
  exact ⟨r, hok, hmem ("idli", ⟨39, 2⟩) (by decide) (by decide)⟩

/-! ## C2 — remote fallback -/

/-- C2 counterexample: the claim says missing numeric fields of a remote
item default to 0.0, but `__nutritionix_parse__` defaults a missing
`serving_qty` to 1 (`src/app.py` line 107): a remote response with one
item that has no `serving_qty` yields an item with quantity 1, not 0. -/
theorem c2_counterexample :
    resolve [] (some [⟨some "rice", none, none, none, none⟩]) "rice please" =
      Except.ok (nutritionix_parse_remote [⟨some "rice", none, none, none, none⟩],
        Source.Remote) ∧
    ((nutritionix_parse_remote [⟨some "rice", none, none, none, none⟩]).items.map
      ResolvedItem.qty) = [1] ∧
    (1 : ℚ) ≠ 0 := by
  refine ⟨rfl, by decide, by decide⟩

/-- C2 amended: for every text matching zero catalog entries, when a remote
resolver is configured and the remote API returns at least one item, the
(spec-modelled) local-first resolver returns the Remote-sourced result of
`__nutritionix_parse__`: one item per API food carrying the API-provided
name (kept as given, even when missing), serving quantity (missing
quantity defaults to 1, not 0), serving unit (missing unit defaults to ""),
and calorie/protein values (missing values default to 0.0), with totals
equal to the sums of the API-provided calorie/protein values. -/
theorem c2_remote_fallback (catalog : FoodCatalog) (foods : List RemoteFood)
    (text : String) (hl : localItems catalog (strLower text) = [])
    (hne : foods ≠ []) :
    resolve catalog (some foods) text =
      Except.ok (nutritionix_parse_remote foods, Source.Remote) ∧
    (nutritionix_parse_remote foods).items = foods.map mkRemoteItem ∧
    (∀ it ∈ foods,
      (mkRemoteItem it).name = it.food_name ∧
      (mkRemoteItem it).qty = it.serving_qty.getD 1 ∧
      (mkRemoteItem it).unit = it.serving_unit.getD "" ∧
      (mkRemoteItem it).calories = it.nf_calories.getD 0 ∧
      (mkRemoteItem it).protein_g = it.nf_protein.getD 0) ∧
    (nutritionix_parse_remote foods).total_calories =
      (foods.map fun it => it.nf_calories.getD 0).sum ∧
    (nutritionix_parse_remote foods).total_protein_g =
      (foods.map fun it => it.nf_protein.getD 0).sum := by
  have hitems : (nutritionix_parse_remote foods).items = foods.map mkRemoteItem := rfl
  refine ⟨?_, hitems, fun it _ => ⟨rfl, rfl, rfl, rfl, rfl⟩, ?_, ?_⟩
  · simp only [resolve, nutritionix_parse_err catalog text hl]
    rw [if_neg]
    simp [List.isEmpty_iff, hitems, List.map_eq_nil_iff, hne]
  · show ((foods.map mkRemoteItem).map ResolvedItem.calories).sum = _
    rw [List.map_map]
    rfl
  · show ((foods.map mkRemoteItem).map ResolvedItem.protein_g).sum = _
    rw [List.map_map]
    rfl

/-- Witness for C2 (amended) at a concrete remote response of two items. -/
theorem c2_remote_fallback_witness :
    resolve [("idli", ⟨39, 2⟩)]
      (some [⟨some "egg", some 2, some "large", some 155, some 13⟩,
             ⟨some "toast", none, none, some 75, none⟩]) "eggs and toast" =
      Except.ok (nutritionix_parse_remote
        [⟨some "egg", some 2, some "large", some 155, some 13⟩,
         ⟨some "toast", none, none, some 75, none⟩], Source.Remote) ∧
    (nutritionix_parse_remote
      [⟨some "egg", some 2, some "large", some 155, some 13⟩,
       ⟨some "toast", none, none, some 75, none⟩]).total_calories = 230 := by
  have h := c2_remote_fallback [("idli", ⟨39, 2⟩)]
    [⟨some "egg", some 2, some "large", some 155, some 13⟩,
     ⟨some "toast", none, none, some 75, none⟩] "eggs and toast" (by decide) (by decide)
  refine ⟨h.1, ?_⟩
  rw [h.2.2.2.1]
  simp only [List.map_cons, List.map_nil, Option.getD_some, List.sum_cons, List.sum_nil]
  norm_num

/-! ## C3 — nothing matches -/

/-- C3 counterexample: for a text matching nothing, the webhook does not
surface the "could not understand" usage reply; it surfaces the
"could not reach the nutrition database" reply (the generic handler of
`src/app.py` lines 218-222, whose text does not contain "understand"),
while the usage reply (the one reading "could not understand") is reserved
for empty input or a missing sender. -/
theorem c3_counterexample :
    whatsapp_webhook [("idli", ⟨39, 2⟩)]
      ⟨"2026-10-12", "2026-10-12T08:00:00", false, none, none⟩
      (some "whatsapp:+15551234567") (some "zzz") ⟨0, []⟩ =
      (unreachable_reply, ⟨0, []⟩) ∧
    strContains "understand".data unreachable_reply.data = false ∧
    strContains "understand".data usage_reply.data = true := by
  refine ⟨by decide, by decide, by decide⟩

/-- C3 amended: for every text that matches nothing locally, the local
parse fails with `ValueError("Food not found in database")` (the concrete
realization of `NoFoodFoundError`), the spec-modelled resolver fails with
`NoFoodFoundError` when the remote is unconfigured or returns zero items,
and the message handler surfaces the user-facing "could not reach the
nutrition database, try again later" reply — not a crash, not the raw
error, and not the "could not understand" usage reply. -/
theorem c3_no_match (catalog : FoodCatalog) (env : Env)
    (f b : Option String) (s : Store) (body : String)
    (hr : route f b = Command.LogMeal body)
    (hl : localItems catalog (strLower body) = []) :
    nutritionix_parse catalog body = Except.error "Food not found in database" ∧
    resolve catalog none body = Except.error "NoFoodFoundError" ∧
    resolve catalog (some []) body = Except.error "NoFoodFoundError" ∧
    whatsapp_webhook catalog env f b s = (unreachable_reply, s) := by
  have hperr := nutritionix_parse_err catalog body hl
  refine ⟨hperr, ?_, ?_, ?_⟩
  · simp [resolve, hperr]
  · simp [resolve, hperr, nutritionix_parse_remote]
  · simp [whatsapp_webhook, hr, hperr]

/-- Witness for C3 (amended) at a concrete unmatched text. -/
theorem c3_no_match_witness :
    nutritionix_parse [("idli", ⟨39, 2⟩)] "pizza" =
      Except.error "Food not found in database" ∧
    resolve [("idli", ⟨39, 2⟩)] none "pizza" = Except.error "NoFoodFoundError" ∧
    resolve [("idli", ⟨39, 2⟩)] (some []) "pizza" = Except.error "NoFoodFoundError" ∧
    whatsapp_webhook [("idli", ⟨39, 2⟩)]
      ⟨"2026-10-12", "2026-10-12T08:00:00", false, none, none⟩
      (some "whatsapp:+15551234567") (some "pizza") ⟨0, []⟩ =
      (unreachable_reply, ⟨0, []⟩) :=
  c3_no_match [("idli", ⟨39, 2⟩)]
    ⟨"2026-10-12", "2026-10-12T08:00:00", false, none, none⟩
    (some "whatsapp:+15551234567") (some "pizza") ⟨0, []⟩ "pizza"
    (by decide) (by decide)

/-! ## C4 — daily sums after appends -/

theorem get_daily_totals_save (u d meal_text : String) (c p : ℚ)
    (det : List ResolvedItem) (now : String) (s : Store)
    (hd : d.data.isPrefixOf now.data = true) :
    get_daily_totals u d (save_meal u meal_text c p det now s) =
      ⟨d, (get_daily_totals u d s).total_calories + c,
          (get_daily_totals u d s).total_protein_g + p⟩ := by
  simp [get_daily_totals, save_meal, matches_day, List.filter_append,
    List.filter_cons, hd, List.map_append, List.sum_append]

theorem runAppends_totals (u d : String) (calls : List AppendCall) :
    ∀ s : Store, (∀ c ∈ calls, d.data.isPrefixOf c.now.data = true) →
      get_daily_totals u d (runAppends u calls s) =
        ⟨d, (get_daily_totals u d s).total_calories +
              (calls.map fun c => c.result.total_calories).sum,
            (get_daily_totals u d s).total_protein_g +
              (calls.map fun c => c.result.total_protein_g).sum⟩ := by
  induction calls with
  | nil =>
    intro s _
    simp [runAppends, get_daily_totals]
  | cons c cs ih =>
    intro s h
    have hstep := get_daily_totals_save u d c.meal_text c.result.total_calories
      c.result.total_protein_g c.result.items c.now s (h c (List.mem_cons_self c cs))
    have htail := ih (save_meal u c.meal_text c.result.total_calories
      c.result.total_protein_g c.result.items c.now s)
      (fun x hx => h x (List.mem_cons_of_mem c hx))
    have hrun : runAppends u (c :: cs) s = runAppends u cs
        (save_meal u c.meal_text c.result.total_calories
          c.result.total_protein_g c.result.items c.now s) := rfl
    rw [hrun, htail, hstep]
    simp [List.map_cons, List.sum_cons, add_assoc]

/-- C4: starting from a store holding no record for user `u` on date `d`
(`matches_day u d` false on every row), the daily sum of that store is
`(0.0, 0.0)` — `get_daily_totals` never fails on "no data" — and after any
sequence of `save_meal` appends for `u` whose timestamps carry `d` as
date prefix, the daily sum equals the componentwise sum of the appended
appended results in `total_calories` and `total_protein_g`. -/
theorem c4_daily_totals (u d : String) (s0 : Store) (calls : List AppendCall)
    (h0 : ∀ r ∈ s0.rows, matches_day u d r = false)
    (hd : ∀ c ∈ calls, d.data.isPrefixOf c.now.data = true) :
    get_daily_totals u d s0 = ⟨d, 0, 0⟩ ∧
    get_daily_totals u d (runAppends u calls s0) =
      ⟨d, (calls.map fun c => c.result.total_calories).sum,
          (calls.map fun c => c.result.total_protein_g).sum⟩ := by
  have hz : get_daily_totals u d s0 = ⟨d, 0, 0⟩ := by
    have hfil : s0.rows.filter (matches_day u d) = [] :=
      List.filter_eq_nil_iff.mpr (fun r hr => by simp [h0 r hr])
    simp [get_daily_totals, hfil]
  refine ⟨hz, ?_⟩
  rw [runAppends_totals u d calls s0 hd, hz]
  simp

/-- Witness for C4: two appends on 2026-10-12 (the idli/dosa
example of the spec) from the empty store sum to 172 kcal and 4.7 g. -/
theorem c4_daily_totals_witness :
    get_daily_totals "whatsapp:+1" "2026-10-12" (⟨0, []⟩ : Store) =
      ⟨"2026-10-12", 0, 0⟩ ∧
    get_daily_totals "whatsapp:+1" "2026-10-12"
      (runAppends "whatsapp:+1"
        [⟨"2026-10-12T08:00:00", "idli", ⟨[], 39, 2⟩⟩,
         ⟨"2026-10-12T12:30:00", "dosa", ⟨[], 133, 2.7⟩⟩] ⟨0, []⟩) =
      ⟨"2026-10-12", 172, 4.7⟩ := by
  have h := c4_daily_totals "whatsapp:+1" "2026-10-12" ⟨0, []⟩
    [⟨"2026-10-12T08:00:00", "idli", ⟨[], 39, 2⟩⟩,
     ⟨"2026-10-12T12:30:00", "dosa", ⟨[], 133, 2.7⟩⟩]
    (by intro r hr; cases hr) (by decide)
  refine ⟨h.1, ?_⟩
  rw [h.2]
  simp only [List.map_cons, List.map_nil, List.sum_cons, List.sum_nil]
  norm_num [DailyTotals.mk.injEq]

/-! ## C5 — idempotence of delete -/

/-- C5: deleting a user-date slice twice with nothing in between deletes 0
records the second time and leaves the store and the daily sum unchanged,
and immediately after any delete the daily sum for that user and date is
`(0.0, 0.0)`. -/
theorem c5_delete_idempotent (s : Store) (u d : String) :
    (delete_for_date u d (delete_for_date u d s).2).1 = 0 ∧
    (delete_for_date u d (delete_for_date u d s).2).2 = (delete_for_date u d s).2 ∧
    get_daily_totals u d (delete_for_date u d s).2 = ⟨d, 0, 0⟩ ∧
    get_daily_totals u d (delete_for_date u d (delete_for_date u d s).2).2 =
      get_daily_totals u d (delete_for_date u d s).2 := by
  have hnil : ∀ rows : List MealRecord,
      (rows.filter fun r => !(matches_day u d r)).filter (matches_day u d) = [] := by
    intro rows
    refine List.filter_eq_nil_iff.mpr ?_
    intro r hr
    have hneg := List.of_mem_filter hr
    simp only [Bool.not_eq_true'] at hneg
    simp [hneg]
  have hself : ∀ rows : List MealRecord,
      ((rows.filter fun r => !(matches_day u d r)).filter fun r => !(matches_day u d r)) =
        rows.filter fun r => !(matches_day u d r) := by
    intro rows
    refine List.filter_eq_self.mpr ?_
    intro r hr
    exact @List.of_mem_filter MealRecord (fun r => !(matches_day u d r)) r rows hr
  refine ⟨?_, ?_, ?_, ?_⟩
  · simp [delete_for_date, hnil]
  · simp [delete_for_date, hself]
  · simp [get_daily_totals, delete_for_date, hnil]
  · simp [get_daily_totals, delete_for_date, hnil, hself]

/-! ## C10 — clear deletes exactly the sender-today slice -/

/-- C10: the ClearToday branch replies with the cleared-confirmation text and
removes exactly the rows whose `user_id` equals the sender and whose
timestamp starts with the current date; every other row — other user or other
date — stays in the store (in order), and every surviving row is an
unchanged original row not matching the sender-today filter. -/
theorem c10_clear_frame (catalog : FoodCatalog) (env : Env)
    (f b : Option String) (s : Store)
    (hr : route f b = Command.ClearToday) :
    whatsapp_webhook catalog env f b s =
      (cleared_reply,
       ⟨s.next_id, s.rows.filter fun r => !(matches_day (f.getD "") env.today r)⟩) ∧
    (∀ r ∈ s.rows, matches_day (f.getD "") env.today r = false →
      r ∈ (whatsapp_webhook catalog env f b s).2.rows) ∧
    (∀ r ∈ (whatsapp_webhook catalog env f b s).2.rows,
      r ∈ s.rows ∧ matches_day (f.getD "") env.today r = false) := by
  have hw : whatsapp_webhook catalog env f b s =
      (cleared_reply,
       ⟨s.next_id, s.rows.filter fun r => !(matches_day (f.getD "") env.today r)⟩) := by
    simp [whatsapp_webhook, hr, delete_for_date]
  refine ⟨hw, ?_, ?_⟩
  · intro r hrr hm
    rw [hw]
    exact List.mem_filter.mpr ⟨hrr, by simp [hm]⟩
  · intro r hrr
    rw [hw] at hrr
    have h1 := List.mem_of_mem_filter hrr
    have h2 := List.of_mem_filter hrr
    simp only [Bool.not_eq_true'] at h2
    exact ⟨h1, h2⟩

/-- Witness for C10: "clear" removes the current-date row of the sender and
keeps the row of the other user. -/
theorem c10_clear_frame_witness :
    whatsapp_webhook [] ⟨"2026-10-12", "2026-10-12T10:00:00", false, none, none⟩
      (some "whatsapp:+1") (some "clear")
      ⟨2, [⟨0, "whatsapp:+1", "2026-10-12T08:00:00", "idli", 39, 2, []⟩,
           ⟨1, "whatsapp:+2", "2026-10-12T09:00:00", "dosa", 133, 3, []⟩]⟩ =
      (cleared_reply,
       ⟨2, [⟨1, "whatsapp:+2", "2026-10-12T09:00:00", "dosa", 133, 3, []⟩]⟩) := by
  have h := c10_clear_frame [] ⟨"2026-10-12", "2026-10-12T10:00:00", false, none, none⟩
    (some "whatsapp:+1") (some "clear")
    ⟨2, [⟨0, "whatsapp:+1", "2026-10-12T08:00:00", "idli", 39, 2, []⟩,
         ⟨1, "whatsapp:+2", "2026-10-12T09:00:00", "dosa", 133, 3, []⟩]⟩ (by decide)
  rw [h.1]
  decide

/-! ## C6 — record totals invariant -/

/-- C6: after any webhook call, every row of the store is either one of the
rows that were already there (no operation rewrites a stored row) or the
newly inserted row, whose stored `calories`/`protein_g` equal the
componentwise sums over the items serialized into its `details` column. -/
theorem c6_record_invariant (catalog : FoodCatalog) (env : Env)
    (f b : Option String) (s : Store) :
    ∀ r ∈ (whatsapp_webhook catalog env f b s).2.rows,
      r ∈ s.rows ∨
      (r.calories = (r.details.map ResolvedItem.calories).sum ∧
       r.protein_g = (r.details.map ResolvedItem.protein_g).sum) := by
  intro r hr
  cases hroute : route f b with
  | Malformed =>
    simp only [whatsapp_webhook, hroute] at hr
    exact Or.inl hr
  | QueryTotals =>
    simp only [whatsapp_webhook, hroute] at hr
    exact Or.inl hr
  | ClearToday =>
    simp only [whatsapp_webhook, hroute, delete_for_date] at hr
    exact Or.inl (List.mem_of_mem_filter hr)
  | LogMeal body =>
    cases hp : nutritionix_parse catalog body with
    | error e =>
      simp only [whatsapp_webhook, hroute, hp] at hr
      exact Or.inl hr
    | ok n =>
      have hsums := nutritionix_parse_ok_sums catalog body n hp
      cases hpe : env.persist_error with
      | some m =>
        simp only [whatsapp_webhook, hroute, hp, hpe] at hr
        exact Or.inl hr
      | none =>
        cases ho : openai_clean_and_confirm env body n.items with
        | some pretty =>
          simp only [whatsapp_webhook, hroute, hp, hpe, ho, save_meal] at hr
          rcases List.mem_append.mp hr with h | h
          · exact Or.inl h
          · rcases List.mem_singleton.mp h with rfl
            exact Or.inr ⟨hsums.1, hsums.2⟩
        | none =>
          simp only [whatsapp_webhook, hroute, hp, hpe, ho, save_meal] at hr
          rcases List.mem_append.mp hr with h | h
          · exact Or.inl h
          · rcases List.mem_singleton.mp h with rfl
            exact Or.inr ⟨hsums.1, hsums.2⟩

/-- Witness for C6, instantiating the invariant at a concrete store and a
concrete row. -/
theorem c6_record_invariant_witness :
    (⟨0, "whatsapp:+1", "2026-10-12T08:00:00", "idli", 39, 2,
      [⟨some "idli", 1, "serving", 39, 2⟩]⟩ : MealRecord) ∈
      (⟨1, [⟨0, "whatsapp:+1", "2026-10-12T08:00:00", "idli", 39, 2,
        [⟨some "idli", 1, "serving", 39, 2⟩]⟩]⟩ : Store).rows ∨
    ((39 : ℚ) = (([⟨some "idli", 1, "serving", 39, 2⟩] : List ResolvedItem).map
        ResolvedItem.calories).sum ∧
     (2 : ℚ) = (([⟨some "idli", 1, "serving", 39, 2⟩] : List ResolvedItem).map
        ResolvedItem.protein_g).sum) :=
  c6_record_invariant [] ⟨"2026-10-12", "2026-10-12T09:00:00", false, none, none⟩
    (some "whatsapp:+1") (some "totals")
    ⟨1, [⟨0, "whatsapp:+1", "2026-10-12T08:00:00", "idli", 39, 2,
      [⟨some "idli", 1, "serving", 39, 2⟩]⟩]⟩ _ (by decide)

/-! ## C9 — the handler always answers -/

theorem joinLines_cons_length (x : String) (l : List String) :
    x.length ≤ (joinLines (x :: l)).length := by
  cases l with
  | nil => exact Nat.le_refl _
  | cons y t =>
    show x.length ≤ (x ++ "\n" ++ joinLines (y :: t)).length
    simp only [String.length_append]
    omega

/-- C9: for every inbound message, every catalog, every store and every
combination of component-error outcomes (resolution failure, persistence
error, formatter error), the webhook terminates with a nonempty reply
string: each failure is caught and converted to a reply, none propagates. -/
theorem c9_always_replies (catalog : FoodCatalog) (env : Env)
    (f b : Option String) (s : Store) :
    0 < ((whatsapp_webhook catalog env f b s).1).length := by
  cases hroute : route f b with
  | Malformed =>
    simp only [whatsapp_webhook, hroute]
    decide
  | QueryTotals =>
    simp only [whatsapp_webhook, hroute]
    simp only [String.length_append]
    have h0 : 0 < ("Your totals for " : String).length := by decide
    omega
  | ClearToday =>
    simp only [whatsapp_webhook, hroute]
    decide
  | LogMeal body =>
    cases hp : nutritionix_parse catalog body with
    | error e =>
      simp only [whatsapp_webhook, hroute, hp]
      decide
    | ok n =>
      cases hpe : env.persist_error with
      | some m =>
        simp only [whatsapp_webhook, hroute, hp, hpe]
        simp only [String.length_append]
        have h0 : 0 < ("Unexpected error: " : String).length := by decide
        omega
      | none =>
        cases ho : openai_clean_and_confirm env body n.items with
        | some pretty =>
          simp only [whatsapp_webhook, hroute, hp, hpe, ho]
          simp only [String.length_append]
          have h0 : 0 < ("\n\nMeal totals: " : String).length := by decide
          omega
        | none =>
          simp only [whatsapp_webhook, hroute, hp, hpe, ho, List.cons_append]
          have h1 : ("I logged this meal:" : String).length ≤
              (joinLines ("I logged this meal:" ::
                (n.items.map itemLine ++
                 ["\nMeal totals: " ++ fmtF0 n.total_calories ++ " kcal, " ++
                    fmtF1 n.total_protein_g ++ " g protein",
                  "Today\x27s running totals: " ++
                    fmtF0 (get_daily_totals (f.getD "") env.today
                      (save_meal (f.getD "") body n.total_calories
                        n.total_protein_g n.items env.now s)).total_calories ++
                    " kcal, " ++
                    fmtF1 (get_daily_totals (f.getD "") env.today
                      (save_meal (f.getD "") body n.total_calories
                        n.total_protein_g n.items env.now s)).total_protein_g ++
                    " g protein"]))).length :=
            joinLines_cons_length _ _
          have h0 : 0 < ("I logged this meal:" : String).length := by decide
          omega

/-! ## C7 — routing -/

/-- C7 counterexample: the text handed to the resolver (and stored as
`meal_text`) is the whitespace-trimmed body, not the full original text:
for the input " biryani " the LogMeal command and the stored row carry
"biryani". -/
theorem c7_counterexample :
    route (some "whatsapp:+1") (some " biryani ") = Command.LogMeal "biryani" ∧
    ((whatsapp_webhook [("biryani", ⟨290, 8⟩)]
        ⟨"2026-10-12", "2026-10-12T08:00:00", false, none, none⟩
        (some "whatsapp:+1") (some " biryani ") ⟨0, []⟩).2.rows.map
      MealRecord.meal_text) = ["biryani"] ∧
    ("biryani" : String) ≠ " biryani " := by
  refine ⟨by decide, by decide, by decide⟩

theorem route_malformed_iff (f b : Option String) :
    route f b = Command.Malformed ↔
      f.getD "" = "" ∨ strTrim (b.getD "") = "" := by
  simp only [route]
  split_ifs with h1 h2 h3
  · simp only [Bool.or_eq_true, decide_eq_true_eq] at h1
    exact iff_of_true rfl h1
  · simp only [Bool.or_eq_true, decide_eq_true_eq] at h1
    exact iff_of_false (by simp) h1
  · simp only [Bool.or_eq_true, decide_eq_true_eq] at h1
    exact iff_of_false (by simp) h1
  · simp only [Bool.or_eq_true, decide_eq_true_eq] at h1
    exact iff_of_false (by simp) h1

theorem route_query_iff (f b : Option String) :
    route f b = Command.QueryTotals ↔
      f.getD "" ≠ "" ∧ strTrim (b.getD "") ≠ "" ∧
      (strTrim (strLower (strTrim (b.getD ""))) = "totals" ∨
       strTrim (strLower (strTrim (b.getD ""))) = "total" ∨
       strTrim (strLower (strTrim (b.getD ""))) = "today") := by
  simp only [route]
  split_ifs with h1 h2 h3
  · simp only [Bool.or_eq_true, decide_eq_true_eq] at h1
    exact iff_of_false (by simp) (fun h => h1.elim h.1 h.2.1)
  · simp only [Bool.or_eq_true, decide_eq_true_eq] at h1
    simp only [Bool.or_eq_true, decide_eq_true_eq, or_assoc] at h2
    exact iff_of_true rfl ⟨fun a => h1 (Or.inl a), fun c => h1 (Or.inr c), h2⟩
  · simp only [Bool.or_eq_true, decide_eq_true_eq, or_assoc] at h2
    exact iff_of_false (by simp) (fun h => h2 h.2.2)
  · simp only [Bool.or_eq_true, decide_eq_true_eq, or_assoc] at h2
    exact iff_of_false (by simp) (fun h => h2 h.2.2)

theorem route_clear_iff (f b : Option String) :
    route f b = Command.ClearToday ↔
      f.getD "" ≠ "" ∧ strTrim (b.getD "") ≠ "" ∧
      (strTrim (strLower (strTrim (b.getD ""))) = "clear" ∨
       strTrim (strLower (strTrim (b.getD ""))) = "clear today" ∨
       strTrim (strLower (strTrim (b.getD ""))) = "reset") := by
  simp only [route]
  split_ifs with h1 h2 h3
  · simp only [Bool.or_eq_true, decide_eq_true_eq] at h1
    exact iff_of_false (by simp) (fun h => h1.elim h.1 h.2.1)
  · simp only [Bool.or_eq_true, decide_eq_true_eq, or_assoc] at h2
    refine iff_of_false (by simp) (fun h => ?_)
    rcases h.2.2 with hc | hc | hc <;> rcases h2 with ht | ht | ht <;>
      rw [hc] at ht <;> exact absurd ht (by decide)
  · simp only [Bool.or_eq_true, decide_eq_true_eq] at h1
    simp only [Bool.or_eq_true, decide_eq_true_eq, or_assoc] at h3
    exact iff_of_true rfl ⟨fun a => h1 (Or.inl a), fun c => h1 (Or.inr c), h3⟩
  · simp only [Bool.or_eq_true, decide_eq_true_eq, or_assoc] at h3
    exact iff_of_false (by simp) (fun h => h3 h.2.2)

theorem route_log_iff (f b : Option String) :
    route f b = Command.LogMeal (strTrim (b.getD "")) ↔
      f.getD "" ≠ "" ∧ strTrim (b.getD "") ≠ "" ∧
      ¬(strTrim (strLower (strTrim (b.getD ""))) = "totals" ∨
        strTrim (strLower (strTrim (b.getD ""))) = "total" ∨
        strTrim (strLower (strTrim (b.getD ""))) = "today") ∧
      ¬(strTrim (strLower (strTrim (b.getD ""))) = "clear" ∨
        strTrim (strLower (strTrim (b.getD ""))) = "clear today" ∨
        strTrim (strLower (strTrim (b.getD ""))) = "reset") := by
  simp only [route]
  split_ifs with h1 h2 h3
  · simp only [Bool.or_eq_true, decide_eq_true_eq] at h1
    exact iff_of_false (by simp) (fun h => h1.elim h.1 h.2.1)
  · simp only [Bool.or_eq_true, decide_eq_true_eq, or_assoc] at h2
    exact iff_of_false (by simp) (fun h => h.2.2.1 h2)
  · simp only [Bool.or_eq_true, decide_eq_true_eq, or_assoc] at h3
    exact iff_of_false (by simp) (fun h => h.2.2.2 h3)
  · simp only [Bool.or_eq_true, decide_eq_true_eq] at h1
    simp only [Bool.or_eq_true, decide_eq_true_eq, or_assoc] at h2 h3
    exact iff_of_true rfl ⟨fun a => h1 (Or.inl a), fun c => h1 (Or.inr c), h2, h3⟩

theorem route_log_text (f b : Option String) :
    ∀ t, route f b = Command.LogMeal t → t = strTrim (b.getD "") := by
  simp only [route]
  split_ifs with h1 h2 h3 <;> intro t ht
  · exact absurd ht (by simp)
  · exact absurd ht (by simp)
  · exact absurd ht (by simp)
  · injection ht with h
    exact h.symm

/-- C7 amended: with `body` the trimmed form of the message body and
`lower` its lowercased, re-trimmed form, the router classifies exactly as
the claim says — "totals"/"total"/"today" to QueryTotals, "clear"/
"clear today"/"reset" to ClearToday, empty body or missing sender to the
usage-hint reply with the store untouched — but any other input reaches
the resolver as the trimmed text `body`, not as the unmodified original
text. -/
theorem c7_routing (f b : Option String) (catalog : FoodCatalog) (env : Env)
    (s : Store) (body lower : String)
    (hbody : body = strTrim (b.getD ""))
    (hlower : lower = strTrim (strLower body)) :
    (route f b = Command.Malformed ↔ f.getD "" = "" ∨ body = "") ∧
    (route f b = Command.QueryTotals ↔
      f.getD "" ≠ "" ∧ body ≠ "" ∧
      (lower = "totals" ∨ lower = "total" ∨ lower = "today")) ∧
    (route f b = Command.ClearToday ↔
      f.getD "" ≠ "" ∧ body ≠ "" ∧
      (lower = "clear" ∨ lower = "clear today" ∨ lower = "reset")) ∧
    (route f b = Command.LogMeal body ↔
      f.getD "" ≠ "" ∧ body ≠ "" ∧
      ¬(lower = "totals" ∨ lower = "total" ∨ lower = "today") ∧
      ¬(lower = "clear" ∨ lower = "clear today" ∨ lower = "reset")) ∧
    (∀ t, route f b = Command.LogMeal t → t = body) ∧
    (route f b = Command.Malformed →
      whatsapp_webhook catalog env f b s = (usage_reply, s)) := by
  subst hbody
  subst hlower
  refine ⟨route_malformed_iff f b, route_query_iff f b, route_clear_iff f b,
    route_log_iff f b, route_log_text f b, ?_⟩
  intro hm
  simp [whatsapp_webhook, hm]

/-- Witness for C7 (amended) at concrete inputs: " Totals " routes to
QueryTotals, and a blank body yields the usage reply with the store
unchanged. -/
theorem c7_routing_witness :
    route (some "whatsapp:+1") (some " Totals ") = Command.QueryTotals ∧
    whatsapp_webhook [] ⟨"2026-10-12", "2026-10-12T08:00:00", false, none, none⟩
      (some "whatsapp:+1") (some "   ") ⟨0, []⟩ = (usage_reply, ⟨0, []⟩) := by
  have h1 := c7_routing (some "whatsapp:+1") (some " Totals ") []
    ⟨"2026-10-12", "2026-10-12T08:00:00", false, none, none⟩ ⟨0, []⟩
    (strTrim " Totals ") (strTrim (strLower (strTrim " Totals "))) rfl rfl
  have h2 := c7_routing (some "whatsapp:+1") (some "   ") []
    ⟨"2026-10-12", "2026-10-12T08:00:00", false, none, none⟩ ⟨0, []⟩
    (strTrim "   ") (strTrim (strLower (strTrim "   "))) rfl rfl
  exact ⟨h1.2.1.mpr (by refine ⟨by decide, by decide, ?_⟩; left; decide),
         h2.2.2.2.2.2 (h2.1.mpr (Or.inr (by decide)))⟩

/-! ## C8 — the deterministic fallback reply -/

theorem joinLines_cons_of_ne_nil (x : String) (l : List String) (h : l ≠ []) :
    joinLines (x :: l) = x ++ "\n" ++ joinLines l := by
  cases l with
  | nil => exact absurd rfl h
  | cons y t => rfl

theorem joinLines_blank_line (xs : List String) (a b : String) :
    joinLines (xs ++ ["\n" ++ a, b]) = joinLines (xs ++ ["", a, b]) := by
  induction xs with
  | nil =>
    show ("\n" ++ a) ++ "\n" ++ joinLines [b] = "" ++ "\n" ++ joinLines [a, b]
    show ("\n" ++ a) ++ "\n" ++ b = "" ++ "\n" ++ (a ++ "\n" ++ b)
    simp [String.append_assoc]
  | cons x xs ih =>
    rw [List.cons_append, List.cons_append,
      joinLines_cons_of_ne_nil x (xs ++ ["\n" ++ a, b]) (by simp),
      joinLines_cons_of_ne_nil x (xs ++ ["", a, b]) (by simp), ih]

/-- C8 amended (error case): when the formatter is configured but errors on
a logged meal, the reply is exactly the deterministic template — header
"I logged this meal:", one item line per item, a blank line, the meal
totals line, the running totals line. -/
theorem c8_fallback_template (catalog : FoodCatalog) (env : Env)
    (f b : Option String) (s : Store) (body : String) (n : NutritionResult)
    (hr : route f b = Command.LogMeal body)
    (hk : env.openai_key = true)
    (ho : env.openai_reply = none)
    (hp : env.persist_error = none)
    (hn : nutritionix_parse catalog body = Except.ok n) :
    (whatsapp_webhook catalog env f b s).1 =
      spec_fallback_template "I logged this meal:" n.items
        n.total_calories n.total_protein_g
        (get_daily_totals (f.getD "") env.today
          (save_meal (f.getD "") body n.total_calories n.total_protein_g
            n.items env.now s)).total_calories
        (get_daily_totals (f.getD "") env.today
          (save_meal (f.getD "") body n.total_calories n.total_protein_g
            n.items env.now s)).total_protein_g := by
  simp only [whatsapp_webhook, hr, hn, hp, openai_clean_and_confirm, hk,
    Bool.not_true, Bool.false_eq_true, if_false, ho]
  have hsplit : ∀ X : String, "\nMeal totals: " ++ X = "\n" ++ ("Meal totals: " ++ X) := by
    intro X
    rw [show ("\nMeal totals: " : String) = "\n" ++ "Meal totals: " from rfl,
      String.append_assoc]
  rw [show ("\nMeal totals: " ++ fmtF0 n.total_calories ++ " kcal, " ++
      fmtF1 n.total_protein_g ++ " g protein" : String) =
      "\n" ++ ("Meal totals: " ++ (fmtF0 n.total_calories ++ (" kcal, " ++
        (fmtF1 n.total_protein_g ++ " g protein"))))
    from by rw [String.append_assoc, String.append_assoc, String.append_assoc, hsplit]]
  rw [joinLines_blank_line]
  simp [spec_fallback_template, String.append_assoc]

/-- Witness for C8 (amended) at the one-entry catalog and the text "idli". -/
theorem c8_fallback_template_witness :
    (whatsapp_webhook [("idli", ⟨39, 2⟩)]
        ⟨"2026-10-12", "2026-10-12T08:00:00", true, none, none⟩
        (some "whatsapp:+1") (some "idli") ⟨0, []⟩).1 =
      spec_fallback_template "I logged this meal:"
        [⟨some "idli", 1, "serving", 39, 2⟩] 39 2
        (get_daily_totals "whatsapp:+1" "2026-10-12"
          (save_meal "whatsapp:+1" "idli" 39 2 [⟨some "idli", 1, "serving", 39, 2⟩]
            "2026-10-12T08:00:00" ⟨0, []⟩)).total_calories
        (get_daily_totals "whatsapp:+1" "2026-10-12"
          (save_meal "whatsapp:+1" "idli" 39 2 [⟨some "idli", 1, "serving", 39, 2⟩]
            "2026-10-12T08:00:00" ⟨0, []⟩)).total_protein_g := by
  have hn : nutritionix_parse [("idli", ⟨39, 2⟩)] "idli" =
      Except.ok ⟨[⟨some "idli", 1, "serving", 39, 2⟩], 39, 2⟩ := by
    rw [nutritionix_parse_ok [("idli", ⟨39, 2⟩)] "idli" (by decide)]
    rw [show localItems [("idli", ⟨39, 2⟩)] (strLower "idli") =
      [⟨some "idli", 1, "serving", 39, 2⟩] from by decide]
    simp only [List.map_cons, List.map_nil, List.sum_cons, List.sum_nil,
      NutritionResult.mk.injEq]
    norm_num
  exact c8_fallback_template [("idli", ⟨39, 2⟩)]
    ⟨"2026-10-12", "2026-10-12T08:00:00", true, none, none⟩
    (some "whatsapp:+1") (some "idli") ⟨0, []⟩ "idli"
    ⟨[⟨some "idli", 1, "serving", 39, 2⟩], 39, 2⟩
    (by decide) rfl rfl rfl hn

theorem webhook_no_key_reply (catalog : FoodCatalog) (env : Env)
    (f b : Option String) (s : Store) (body : String) (n : NutritionResult)
    (hr : route f b = Command.LogMeal body)
    (hk : env.openai_key = false)
    (hp : env.persist_error = none)
    (hn : nutritionix_parse catalog body = Except.ok n) :
    (whatsapp_webhook catalog env f b s).1 =
      joinLines ("I parsed the following items:" :: n.items.map itemLine) ++
        "\n\nMeal totals: " ++ fmtF0 n.total_calories ++ " kcal, " ++
        fmtF1 n.total_protein_g ++ " g protein." ++
        "\nToday\x27s running totals: " ++
        fmtF0 (get_daily_totals (f.getD "") env.today
          (save_meal (f.getD "") body n.total_calories n.total_protein_g
            n.items env.now s)).total_calories ++ " kcal, " ++
        fmtF1 (get_daily_totals (f.getD "") env.today
          (save_meal (f.getD "") body n.total_calories n.total_protein_g
            n.items env.now s)).total_protein_g ++ " g protein." := by
  simp only [whatsapp_webhook, hr, hn, hp, openai_clean_and_confirm, hk,
    Bool.not_false, if_true]

/-- C8 counterexample: when the formatter is unavailable (no API key), the
reply is not the deterministic template: its header reads "I parsed the
following items:" and its two totals lines end with a period, while the
totals lines of the template do not. -/
theorem c8_counterexample :
    (whatsapp_webhook [("idli", ⟨39, 2⟩)]
        ⟨"2026-10-12", "2026-10-12T08:00:00", false, none, none⟩
        (some "whatsapp:+1") (some "idli") ⟨0, []⟩).1 =
      "I parsed the following items:\n- 1 serving idli: 39 kcal, 2.0 g protein\n\nMeal totals: 39 kcal, 2.0 g protein.\nToday\x27s running totals: 39 kcal, 2.0 g protein." ∧
    spec_fallback_template "I parsed the following items:"
        [⟨some "idli", 1, "serving", 39, 2⟩] 39 2 39 2 =
      "I parsed the following items:\n- 1 serving idli: 39 kcal, 2.0 g protein\n\nMeal totals: 39 kcal, 2.0 g protein\nToday\x27s running totals: 39 kcal, 2.0 g protein" ∧
    ("I parsed the following items:\n- 1 serving idli: 39 kcal, 2.0 g protein\n\nMeal totals: 39 kcal, 2.0 g protein.\nToday\x27s running totals: 39 kcal, 2.0 g protein." : String) ≠
      "I parsed the following items:\n- 1 serving idli: 39 kcal, 2.0 g protein\n\nMeal totals: 39 kcal, 2.0 g protein\nToday\x27s running totals: 39 kcal, 2.0 g protein" ∧
    spec_fallback_template "I logged this meal:"
        [⟨some "idli", 1, "serving", 39, 2⟩] 39 2 39 2 =
      "I logged this meal:\n- 1 serving idli: 39 kcal, 2.0 g protein\n\nMeal totals: 39 kcal, 2.0 g protein\nToday\x27s running totals: 39 kcal, 2.0 g protein" := by
  have hn : nutritionix_parse [("idli", ⟨39, 2⟩)] "idli" =
      Except.ok ⟨[⟨some "idli", 1, "serving", 39, 2⟩], 39, 2⟩ := by
    rw [nutritionix_parse_ok [("idli", ⟨39, 2⟩)] "idli" (by decide)]
    rw [show localItems [("idli", ⟨39, 2⟩)] (strLower "idli") =
      [⟨some "idli", 1, "serving", 39, 2⟩] from by decide]
    simp only [List.map_cons, List.map_nil, List.sum_cons, List.sum_nil,
      NutritionResult.mk.injEq]
    norm_num
  have hD : get_daily_totals "whatsapp:+1" "2026-10-12"
      (save_meal "whatsapp:+1" "idli" 39 2 [⟨some "idli", 1, "serving", 39, 2⟩]
        "2026-10-12T08:00:00" ⟨0, []⟩) = ⟨"2026-10-12", 39, 2⟩ := by
    rw [get_daily_totals_save "whatsapp:+1" "2026-10-12" "idli" 39 2
      [⟨some "idli", 1, "serving", 39, 2⟩] "2026-10-12T08:00:00" ⟨0, []⟩ (by decide)]
    rw [show get_daily_totals "whatsapp:+1" "2026-10-12" (⟨0, []⟩ : Store) =
      ⟨"2026-10-12", 0, 0⟩ from rfl]
    norm_num [DailyTotals.mk.injEq]
  refine ⟨?_, by decide, by decide, by decide⟩
  rw [webhook_no_key_reply [("idli", ⟨39, 2⟩)]
    ⟨"2026-10-12", "2026-10-12T08:00:00", false, none, none⟩
    (some "whatsapp:+1") (some "idli") ⟨0, []⟩ "idli"
    ⟨[⟨some "idli", 1, "serving", 39, 2⟩], 39, 2⟩
    (by decide) rfl rfl hn]
  simp only [Option.getD_some]
  rw [hD]
  decide

end App
